import Mathlib

/-!
Shallow embedding of the Mermaid diagram rendering pipeline from
`client/src/components/Chat/Messages/Content/MermaidDiagram.tsx`.

The embedding covers:
* `fixCommonSyntaxIssues` — the five ordered JavaScript regex replacements
  (the syntax repair engine);
* the diagram-type validator regex test;
* `jsTrim` — JavaScript `String.prototype.trim`;
* the SVG sizing-attribute injection (`String.prototype.replace` with a
  plain-string pattern, which replaces only the first occurrence);
* `renderRunOf` / `pipelineRun` — the asynchronous `renderDiagram` body and
  the surrounding layout effect, with explicit booleans giving the value of
  the `isCancelled` flag at each await boundary, returning the list of React
  state writes performed and the texts passed to the external renderer.

Recursive string scanners take an explicit fuel argument (initialised with
the length of the input list, which each step strictly decreases by at
least one while consuming exactly one unit of fuel, so the fuel is never
exhausted); this keeps every definition structurally recursive and hence
evaluable by the kernel.
-/

namespace Mermaid

/-- Character class of JavaScript regex whitespace and the characters removed by
JavaScript trim: WhiteSpace plus LineTerminator code points. -/
def jsWhitespace (c : Char) : Bool :=
  c.toNat = 0x20 || c.toNat = 0x09 || c.toNat = 0x0a || c.toNat = 0x0d ||
  c.toNat = 0x0b || c.toNat = 0x0c || c.toNat = 0xa0 || c.toNat = 0x1680 ||
  (0x2000 ≤ c.toNat && c.toNat ≤ 0x200a) || c.toNat = 0x2028 ||
  c.toNat = 0x2029 || c.toNat = 0x202f || c.toNat = 0x205f ||
  c.toNat = 0x3000 || c.toNat = 0xfeff

/-- Drop the leading run of JavaScript whitespace characters. -/
def dropJsWs : List Char → List Char
  | [] => []
  | c :: cs => if jsWhitespace c then dropJsWs cs else c :: cs

/-- JavaScript `String.prototype.trim`: drop leading and trailing whitespace. -/
def jsTrim (s : String) : String :=
  String.mk ((dropJsWs (dropJsWs s.data).reverse).reverse)

/-- Remainder of `l` after the literal pattern `p`, when `p` heads `l`. -/
def stripLit : List Char → List Char → Option (List Char)
  | [], l => some l
  | _ :: _, [] => none
  | p :: ps, c :: cs => if c = p then stripLit ps cs else none

/-- Match one-or-more whitespace characters followed by the literal `target`
(whose first character is never itself whitespace in our uses, so the greedy
run of the regex engine is exactly the maximal run); returns the remainder
after the whole match. -/
def matchWsPlusThen (target : List Char) (l : List Char) : Option (List Char) :=
  match l with
  | [] => none
  | c :: cs => if jsWhitespace c then stripLit target (dropJsWs cs) else none

/-- Scanner for the two rules of shape `--\s+X` replaced by `--X`
(rule 1 with X the greater-than sign, rule 2 with X the pipe).
Replacement text is never rescanned; on a failed match the scan advances
one character, as the JavaScript global regex replace does. -/
def fixDashWsGo (target : Char) : Nat → List Char → List Char
  | _, [] => []
  | 0, l => l
  | fuel + 1, c :: cs =>
    if c = '-' then
      match cs with
      | c2 :: cs2 =>
        if c2 = '-' then
          match matchWsPlusThen [target] cs2 with
          | some rem => '-' :: '-' :: target :: fixDashWsGo target fuel rem
          | none => c :: fixDashWsGo target fuel cs
        else c :: fixDashWsGo target fuel cs
      | [] => [c]
    else c :: fixDashWsGo target fuel cs

/-- Rules 1 and 2 of `fixCommonSyntaxIssues`. -/
def fixDashWs (target : Char) (l : List Char) : List Char :=
  fixDashWsGo target l.length l

/-- Scanner for rule 3, `\|\s+-->` replaced by `|-->`. -/
def fixPipeArrowGo : Nat → List Char → List Char
  | _, [] => []
  | 0, l => l
  | fuel + 1, c :: cs =>
    if c = '|' then
      match matchWsPlusThen ['-', '-', '>'] cs with
      | some rem => '|' :: '-' :: '-' :: '>' :: fixPipeArrowGo fuel rem
      | none => c :: fixPipeArrowGo fuel cs
    else c :: fixPipeArrowGo fuel cs

/-- Rule 3 of `fixCommonSyntaxIssues`. -/
def fixPipeArrow (l : List Char) : List Char :=
  fixPipeArrowGo l.length l

/-- Characters excluded by the bracket-content character class of rule 4. -/
def notBracket (c : Char) : Bool :=
  !(c = '[' || c = ']')

/-- Number of double-quote characters in a list. -/
def countQuotes (l : List Char) : Nat :=
  l.countP (fun c => c = '"')

/-- Remove the first double-quote character, if any. -/
def removeFirstQuote : List Char → List Char
  | [] => []
  | c :: cs => if c = '"' then cs else c :: removeFirstQuote cs

/-- Remove the last two double-quote characters. With at least two quotes
present this is exactly the capture-group concatenation produced by the
greedy backtracking of the rule 4 regex, which consumes the last two quotes
of the bracketed run. -/
def removeLastTwoQuotes (l : List Char) : List Char :=
  (removeFirstQuote (removeFirstQuote l.reverse)).reverse

/-- Scanner for rule 4: inside a bracket pair whose content is a run of
non-bracket characters containing at least two quotes, the regex match
deletes the last two quotes and keeps the rest of the content. -/
def fixBracketQuotesGo : Nat → List Char → List Char
  | _, [] => []
  | 0, l => l
  | fuel + 1, c :: cs =>
    if c = '[' then
      match cs.dropWhile notBracket with
      | ']' :: rem =>
        let run := cs.takeWhile notBracket
        if 2 ≤ countQuotes run then
          '[' :: (removeLastTwoQuotes run ++ ']' :: fixBracketQuotesGo fuel rem)
        else c :: fixBracketQuotesGo fuel cs
      | _ => c :: fixBracketQuotesGo fuel cs
    else c :: fixBracketQuotesGo fuel cs

/-- Rule 4 of `fixCommonSyntaxIssues`. -/
def fixBracketQuotes (l : List Char) : List Char :=
  fixBracketQuotesGo l.length l

/-- ASCII letter, the character class of rule 5. -/
def isAsciiLetter (c : Char) : Bool :=
  (0x41 ≤ c.toNat && c.toNat ≤ 0x5a) || (0x61 ≤ c.toNat && c.toNat ≤ 0x7a)

/-- Scanner for rule 5: the literal word `subgraph` immediately followed by an
ASCII letter gains a space between them; scanning resumes after the letter. -/
def fixSubgraphGo : Nat → List Char → List Char
  | _, [] => []
  | 0, l => l
  | fuel + 1, c :: cs =>
    match stripLit ['s', 'u', 'b', 'g', 'r', 'a', 'p', 'h'] (c :: cs) with
    | some (d :: ds) =>
      if isAsciiLetter d then
        's' :: 'u' :: 'b' :: 'g' :: 'r' :: 'a' :: 'p' :: 'h' :: ' ' :: d ::
          fixSubgraphGo fuel ds
      else c :: fixSubgraphGo fuel cs
    | _ => c :: fixSubgraphGo fuel cs

/-- Rule 5 of `fixCommonSyntaxIssues`. -/
def fixSubgraph (l : List Char) : List Char :=
  fixSubgraphGo l.length l

/-- The syntax repair engine `fixCommonSyntaxIssues`: the five global regex
replacements applied in source order. -/
def fixCommonSyntaxIssues (text : String) : String :=
  String.mk
    (fixSubgraph (fixBracketQuotes (fixPipeArrow
      (fixDashWs '|' (fixDashWs '>' text.data)))))

/-- The alternatives of the diagram-type validation regex, in source order
(the source lists gitgraph twice). -/
def mermaidTypeKeywords : List String :=
  ["graph", "flowchart", "sequenceDiagram", "classDiagram", "stateDiagram",
   "erDiagram", "journey", "gantt", "pie", "gitgraph", "mindmap", "timeline",
   "quadrant", "block-beta", "sankey", "xychart", "gitgraph"]

/-- ASCII case folding of a string, as the case-insensitive regex flag applies
it to these ASCII-only keyword alternatives. -/
def lowerChars (s : String) : List Char :=
  s.data.map Char.toLower

/-- The validation test: the anchored case-insensitive alternation regex
matches exactly when some keyword is a raw character prefix of the text. -/
def validMermaidType (s : String) : Bool :=
  mermaidTypeKeywords.any (fun kw => (lowerChars kw).isPrefixOf (lowerChars s))

/-- Replace the first occurrence of the literal pattern `pat` (scanning left
to right), as the JavaScript string replace with a plain-string pattern. -/
def replaceFirstLit (pat repl : List Char) : List Char → List Char
  | [] => []
  | c :: cs =>
    match stripLit pat (c :: cs) with
    | some rest => repl ++ rest
    | none => c :: replaceFirstLit pat repl cs

/-- The attribute-injected root tag text substituted for the first
occurrence of the svg opening-tag prefix in the returned markup. -/
def sizingInjectedRoot : String :=
  "<svg style=\"max-width: 600px; width: 100%; height: auto; max-height: 400px;\" preserveAspectRatio=\"xMidYMid meet\""

/-- Post-processing of successful render markup: inject the sizing and
aspect-ratio attributes into the first svg opening tag. -/
def injectSizing (svg : String) : String :=
  String.mk (replaceFirstLit "<svg".data sizingInjectedRoot.data svg.data)

/-- Error message committed for empty trimmed content. -/
def noContentMsg : String := "No diagram content provided"

/-- Error message committed when the validator rejects the text. -/
def invalidTypeMsg : String :=
  "Invalid Mermaid syntax - diagram must start with a valid diagram type (flowchart, graph, sequenceDiagram, etc.)"

/-- Error message committed when both the original and repaired text fail. -/
def bothFailedMsg : String :=
  "Invalid diagram syntax - syntax errors found but unable to auto-correct"

/-- Error message committed when the original text fails and the repair
engine produced no change. -/
def unrepairableMsg : String :=
  "Invalid diagram syntax - check arrow formatting and node labels"

/-- Error message committed when the engine resolves successfully but the
result carries no usable svg markup. -/
def noSvgMsg : String :=
  "No SVG generated - rendering failed unexpectedly"

/-- Outcome of one awaited engine render call: the promise either resolves,
carrying an optional svg markup field, or rejects. -/
inductive EngineResult where
  | ok (svg : Option String)
  | err
  deriving DecidableEq, Repr

/-- One observable React state write performed by the render task. -/
inductive StateWrite where
  | setError (msg : String)
  | setWasAutoCorrected (b : Bool)
  | setSvgContent (svg : String)
  | setIsRendered (b : Bool)
  deriving DecidableEq, Repr

/-- Result-commit block of `renderDiagram` (source lines 171 to 195): an
early return when the cancellation flag is set, then either the success
writes when a non-empty svg string is present (the JavaScript truthiness
test treats a missing and an empty svg alike) or the unexpected-failure
writes. `cancelled` is the flag value after the awaited render call; no
await separates the inner checks, so they read the same value. -/
def commitWrites (svg? : Option String) (cancelled : Bool) : List StateWrite :=
  if cancelled then []
  else
    match svg? with
    | some svg =>
      if svg = "" then [.setError noSvgMsg, .setWasAutoCorrected false]
      else [.setSvgContent (injectSizing svg), .setIsRendered true]
    | none => [.setError noSvgMsg, .setWasAutoCorrected false]

/-- Trace of one execution of the asynchronous `renderDiagram` task. -/
structure RenderRun where
  writes : List StateWrite
  renderCalls : List String
  deriving DecidableEq, Repr

/-- The body of `renderDiagram` for an already-trimmed `clean` text.
`rOrig` and `rFix` are the engine answers for the original and the repaired
text. `cA`, `cB`, `cC` are the values the closure-captured `isCancelled`
flag has in the three synchronous phases of the task: before the first
awaited render call, after it, and after the second awaited render call;
the flag only changes across awaits. The trace records the observable
state writes in order and the texts passed to the engine. Note that on a
successful repaired render the auto-corrected indicator write (source line
152) happens before the cancellation check of the commit block. -/
def renderRunOf (clean : String) (rOrig rFix : EngineResult)
    (cA cB cC : Bool) : RenderRun :=
  if cA then ⟨[], []⟩
  else if validMermaidType clean = false then
    ⟨[.setError invalidTypeMsg, .setWasAutoCorrected false], []⟩
  else
    match rOrig with
    | .ok svg? => ⟨commitWrites svg? cB, [clean]⟩
    | .err =>
      if fixCommonSyntaxIssues clean ≠ clean then
        match rFix with
        | .ok svg? =>
          ⟨.setWasAutoCorrected true :: commitWrites svg? cC,
           [clean, fixCommonSyntaxIssues clean]⟩
        | .err =>
          ⟨if cC then [] else [.setError bothFailedMsg, .setWasAutoCorrected false],
           [clean, fixCommonSyntaxIssues clean]⟩
      else
        ⟨if cB then [] else [.setError unrepairableMsg, .setWasAutoCorrected false],
         [clean]⟩

/-- Trace of one run of the layout effect for a new content value:
the state writes of the asynchronous task, whether the debounce timer was
started, and the engine calls made. -/
structure PipelineRun where
  writes : List StateWrite
  timerStarted : Bool
  renderCalls : List String
  deriving DecidableEq, Repr

/-- The layout effect body: trim the content; on empty trimmed content
commit the empty-input error and return before starting the debounce timer;
otherwise start the timer, whose callback runs `renderDiagram` (the
callback and the task entry both read the phase-A flag `cA`). The three
reset writes that open every generation are modelled by `resetState`. -/
def pipelineRun (content : String) (rOrig rFix : EngineResult)
    (cA cB cC : Bool) : PipelineRun :=
  if jsTrim content = "" then ⟨[.setError noContentMsg], false, []⟩
  else
    let r := renderRunOf (jsTrim content) rOrig rFix cA cB cC
    ⟨r.writes, true, r.renderCalls⟩

/-- The component state touched by the render task. -/
structure DiagramState where
  svgContent : String
  isRendered : Bool
  error : Option String
  wasAutoCorrected : Bool
  deriving DecidableEq, Repr

/-- Apply one state write. -/
def applyWrite (s : DiagramState) : StateWrite → DiagramState
  | .setError m => { s with error := some m }
  | .setWasAutoCorrected b => { s with wasAutoCorrected := b }
  | .setSvgContent v => { s with svgContent := v }
  | .setIsRendered b => { s with isRendered := b }

/-- Apply a list of state writes in order. -/
def applyWrites (s : DiagramState) (ws : List StateWrite) : DiagramState :=
  ws.foldl applyWrite s

/-- The reset writes at the start of every effect run (source lines 86 to
88): clear the error, the auto-corrected indicator and the rendered flag;
the previous svg content is kept. -/
def resetState (s : DiagramState) : DiagramState :=
  { s with error := none, wasAutoCorrected := false, isRendered := false }

/-- The text the manual Try Fix remedy computes and offers (source line 62):
the repair engine applied to the original, untrimmed content. -/
def handleTryFixText (content : String) : String :=
  fixCommonSyntaxIssues content

/-- The error-view decision that a fix exists (source lines 223 to 224),
also computed on the untrimmed content. -/
def canTryFix (content : String) : Bool :=
  fixCommonSyntaxIssues content != content

/-- The engine is called zero, one, or two times per task, and the calls are
the original trimmed text followed, at most, by its repaired form. -/
theorem renderRunOf_renderCalls (clean : String) (rOrig rFix : EngineResult)
    (cA cB cC : Bool) :
    (renderRunOf clean rOrig rFix cA cB cC).renderCalls = [] ∨
    (renderRunOf clean rOrig rFix cA cB cC).renderCalls = [clean] ∨
    (renderRunOf clean rOrig rFix cA cB cC).renderCalls =
      [clean, fixCommonSyntaxIssues clean] := by
  cases cA with
  | true => simp [renderRunOf]
  | false =>
    by_cases hv : validMermaidType clean = false
    · simp [renderRunOf, hv]
    · cases rOrig with
      | ok svg? => simp [renderRunOf, hv]
      | err =>
        by_cases hf : fixCommonSyntaxIssues clean = clean
        · simp [renderRunOf, hv, hf]
        · cases rFix <;> simp [renderRunOf, hv, hf]

end Mermaid

namespace Mermaid

/-- C2 counterexample: the syntax repair function is not idempotent. On the
input subgraphsubgraphA one application inserts a space after the first
block keyword, which exposes a second keyword-identifier pair that only the
next application rewrites. -/
theorem repair_not_idempotent :
    fixCommonSyntaxIssues (fixCommonSyntaxIssues "subgraphsubgraphA") ≠
      fixCommonSyntaxIssues "subgraphsubgraphA" := by decide

/-- C2 amended: re-applying the repair function to text it leaves unchanged
(already-correct input) yields the same text; idempotence does not hold for
all inputs. -/
theorem repair_idempotent_on_fixed (x : String)
    (h : fixCommonSyntaxIssues x = x) :
    fixCommonSyntaxIssues (fixCommonSyntaxIssues x) = fixCommonSyntaxIssues x := by
  simp only [h]

/-- Witness for the amended C2 at a concrete already-correct input. -/
theorem repair_idempotent_on_fixed_witness :
    fixCommonSyntaxIssues (fixCommonSyntaxIssues "graph TD") =
      fixCommonSyntaxIssues "graph TD" :=
  repair_idempotent_on_fixed "graph TD" (by decide)

/-- C5: for every input whose trimmed text is empty, the effect immediately
commits the empty-input failure, starts no debounce timer, and the render
executor is never invoked, whatever the engine oracles and cancellation
flags would have been. -/
theorem empty_input_short_circuit (content : String)
    (rOrig rFix : EngineResult) (cA cB cC : Bool)
    (h : jsTrim content = "") :
    pipelineRun content rOrig rFix cA cB cC =
      ⟨[.setError noContentMsg], false, []⟩ := by
  simp [pipelineRun, h]

/-- Witness for C5 at a whitespace-only input. -/
theorem empty_input_short_circuit_witness :
    pipelineRun "   \n\t " .err .err false false false =
      ⟨[.setError noContentMsg], false, []⟩ :=
  empty_input_short_circuit "   \n\t " .err .err false false false (by decide)

/-- C3: every non-empty trimmed input rejected by the type validator commits
the invalid-type failure (for a live generation) and never reaches the
render executor (for any cancellation flags). -/
theorem invalid_type_gate (content : String) (rOrig rFix : EngineResult)
    (hne : jsTrim content ≠ "")
    (hval : validMermaidType (jsTrim content) = false) :
    (pipelineRun content rOrig rFix false false false).writes =
      [.setError invalidTypeMsg, .setWasAutoCorrected false] ∧
    ∀ cA cB cC, (pipelineRun content rOrig rFix cA cB cC).renderCalls = [] := by
  constructor
  · simp [pipelineRun, hne, renderRunOf, hval]
  · intro cA cB cC
    cases cA <;> simp [pipelineRun, hne, renderRunOf, hval]

/-- Witness for C3 at the spec example input flow chart. -/
theorem invalid_type_gate_witness :
    (pipelineRun "flow chart TD" .err .err false false false).writes =
      [.setError invalidTypeMsg, .setWasAutoCorrected false] ∧
    (pipelineRun "flow chart TD" .err .err true false false).renderCalls = [] := by
  have h := invalid_type_gate "flow chart TD" .err .err (by decide) (by decide)
  exact ⟨h.1, h.2 true false false⟩

/-- C4: when the original render attempt fails and the repair produces no
change, no second render call is issued and the unrepairable-syntax failure
is committed; and in every run at most two engine calls (one retry) occur. -/
theorem unrepairable_single_attempt (clean : String) (rFix : EngineResult)
    (hval : validMermaidType clean = true)
    (hfix : fixCommonSyntaxIssues clean = clean) :
    renderRunOf clean .err rFix false false false =
      ⟨[.setError unrepairableMsg, .setWasAutoCorrected false], [clean]⟩ ∧
    ∀ (clean' : String) (rOrig rFix' : EngineResult) (cA cB cC : Bool),
      (renderRunOf clean' rOrig rFix' cA cB cC).renderCalls.length ≤ 2 := by
  constructor
  · simp [renderRunOf, hval, hfix]
  · intro clean' rOrig rFix' cA cB cC
    rcases renderRunOf_renderCalls clean' rOrig rFix' cA cB cC with h | h | h <;>
      simp [h]

/-- Witness for C4 at a fixpoint of the repair engine. -/
theorem unrepairable_single_attempt_witness :
    renderRunOf "graph TD" .err .err false false false =
      ⟨[.setError unrepairableMsg, .setWasAutoCorrected false], ["graph TD"]⟩ ∧
    (renderRunOf "graph TD" .err .err false false false).renderCalls.length ≤ 2 := by
  have h := unrepairable_single_attempt "graph TD" .err (by decide) (by decide)
  exact ⟨h.1, h.2 "graph TD" .err .err false false false⟩

/-- C1 evaluation at the failing input: a generation whose cancellation flag
is set while the repaired render call is in flight (phase C) still performs
the observable auto-corrected indicator write, because the source sets it
before the commit-block cancellation check. -/
theorem staleGeneration_autocorrect_write :
    (renderRunOf "graph TD\nA-- >B" .err (.ok (some "<svg/>"))
        false false true).writes = [StateWrite.setWasAutoCorrected true] ∧
    (renderRunOf "graph TD\nA-- >B" .err (.ok (some "<svg/>"))
        false false true).writes ≠ [] := by decide

/-- Markup beginning with the svg opening-tag prefix is never the empty
string. -/
theorem svg_markup_ne_empty (t : String) : ("<svg" ++ t) ≠ "" := by
  intro h
  have h2 : ("<svg" ++ t).data = "".data := by rw [h]
  simp [String.data_append] at h2

/-- C6: a committed success carries a false auto-corrected indicator when
the original trimmed text rendered on the first attempt; it carries a true
indicator, with the repaired text as the effective rendered text (the
second engine call), exactly when the original attempt failed, the repair
changed the text, and the repaired text rendered successfully with usable
markup. -/
theorem autocorrect_flag_semantics (s0 : DiagramState) (clean v : String)
    (hval : validMermaidType clean = true) (hv : v ≠ "") :
    (∀ rFix,
      applyWrites (resetState s0)
          (renderRunOf clean (.ok (some v)) rFix false false false).writes =
        ⟨injectSizing v, true, none, false⟩ ∧
      (renderRunOf clean (.ok (some v)) rFix false false false).renderCalls =
        [clean]) ∧
    (fixCommonSyntaxIssues clean ≠ clean →
      applyWrites (resetState s0)
          (renderRunOf clean .err (.ok (some v)) false false false).writes =
        ⟨injectSizing v, true, none, true⟩ ∧
      (renderRunOf clean .err (.ok (some v)) false false false).renderCalls =
        [clean, fixCommonSyntaxIssues clean]) ∧
    (∀ rOrig rFix,
      (applyWrites (resetState s0)
          (renderRunOf clean rOrig rFix false false false).writes).wasAutoCorrected
        = true →
      rOrig = .err ∧ fixCommonSyntaxIssues clean ≠ clean ∧
        ∃ w, rFix = .ok (some w) ∧ w ≠ "") := by
  refine ⟨?_, ?_, ?_⟩
  · intro rFix
    constructor <;>
      simp [renderRunOf, hval, commitWrites, hv, applyWrites, applyWrite, resetState]
  · intro hfix
    constructor <;>
      simp [renderRunOf, hval, hfix, commitWrites, hv, applyWrites, applyWrite,
        resetState]
  · intro rOrig rFix h
    cases rOrig with
    | ok svgO =>
      exfalso
      cases svgO with
      | none =>
        simp [renderRunOf, hval, commitWrites, applyWrites, applyWrite,
          resetState] at h
      | some w =>
        by_cases hw : w = "" <;>
          simp [renderRunOf, hval, commitWrites, applyWrites, applyWrite,
            resetState, hw] at h
    | err =>
      by_cases hf : fixCommonSyntaxIssues clean = clean
      · exfalso
        simp [renderRunOf, hval, hf, applyWrites, applyWrite, resetState] at h
      · refine ⟨rfl, hf, ?_⟩
        cases rFix with
        | err =>
          exfalso
          simp [renderRunOf, hval, hf, applyWrites, applyWrite, resetState] at h
        | ok svgF =>
          cases svgF with
          | none =>
            exfalso
            simp [renderRunOf, hval, hf, commitWrites, applyWrites, applyWrite,
              resetState] at h
          | some w =>
            by_cases hw : w = ""
            · exfalso
              simp [renderRunOf, hval, hf, hw, commitWrites, applyWrites,
                applyWrite, resetState] at h
            · exact ⟨w, rfl, hw⟩

/-- Witness for C6: the auto-corrected success path at a concrete input. -/
theorem autocorrect_flag_semantics_witness :
    applyWrites (resetState ⟨"", false, none, false⟩)
        (renderRunOf "graph TD\nA-- >B" .err (.ok (some "<svg/>"))
          false false false).writes =
      ⟨injectSizing "<svg/>", true, none, true⟩ ∧
    (renderRunOf "graph TD\nA-- >B" .err (.ok (some "<svg/>"))
        false false false).renderCalls =
      ["graph TD\nA-- >B", fixCommonSyntaxIssues "graph TD\nA-- >B"] :=
  (autocorrect_flag_semantics ⟨"", false, none, false⟩ "graph TD\nA-- >B"
    "<svg/>" (by decide) (by decide)).2.1 (by decide)

/-- C7: a successful render commits exactly the engine markup with the
sizing and aspect-ratio attributes substituted into the first svg opening
tag, leaving the rest of the markup unchanged. -/
theorem success_markup_injection (clean t : String) (rFix : EngineResult)
    (hval : validMermaidType clean = true) :
    (renderRunOf clean (.ok (some ("<svg" ++ t))) rFix false false false).writes =
      [.setSvgContent (sizingInjectedRoot ++ t), .setIsRendered true] ∧
    injectSizing ("<svg" ++ t) = sizingInjectedRoot ++ t := by
  have hinj : injectSizing ("<svg" ++ t) = sizingInjectedRoot ++ t := rfl
  have hne : ("<svg" ++ t) ≠ "" := svg_markup_ne_empty t
  exact ⟨by simp [renderRunOf, hval, commitWrites, hne, hinj], hinj⟩

/-- Witness for C7 at a concrete valid input and markup tail. -/
theorem success_markup_injection_witness :
    (renderRunOf "graph TD" (.ok (some ("<svg" ++ " id=\"d1\"></svg>")))
        .err false false false).writes =
      [.setSvgContent (sizingInjectedRoot ++ " id=\"d1\"></svg>"),
       .setIsRendered true] ∧
    injectSizing ("<svg" ++ " id=\"d1\"></svg>") =
      sizingInjectedRoot ++ " id=\"d1\"></svg>" :=
  success_markup_injection "graph TD" " id=\"d1\"></svg>" .err (by decide)

/-- C8: a render call that resolves successfully but without usable svg
markup (a missing or empty svg field) commits the unexpected-engine failure
writes, leaving the state with an error and not rendered, rather than a
success. -/
theorem engine_missing_artifact (s0 : DiagramState) (clean : String)
    (rFix : EngineResult) (hval : validMermaidType clean = true) :
    (renderRunOf clean (.ok none) rFix false false false).writes =
      [.setError noSvgMsg, .setWasAutoCorrected false] ∧
    (renderRunOf clean (.ok (some "")) rFix false false false).writes =
      [.setError noSvgMsg, .setWasAutoCorrected false] ∧
    (applyWrites (resetState s0)
        (renderRunOf clean (.ok none) rFix false false false).writes).error =
      some noSvgMsg ∧
    (applyWrites (resetState s0)
        (renderRunOf clean (.ok none) rFix false false false).writes).isRendered =
      false := by
  refine ⟨?_, ?_, ?_, ?_⟩ <;>
    simp [renderRunOf, hval, commitWrites, applyWrites, applyWrite, resetState]

/-- Witness for C8 at a concrete valid input. -/
theorem engine_missing_artifact_witness :
    (renderRunOf "graph TD" (.ok none) .err false false false).writes =
      [.setError noSvgMsg, .setWasAutoCorrected false] ∧
    (applyWrites (resetState ⟨"", false, none, false⟩)
        (renderRunOf "graph TD" (.ok none) .err false false false).writes).error =
      some noSvgMsg := by
  have h := engine_missing_artifact ⟨"", false, none, false⟩ "graph TD" .err
    (by decide)
  exact ⟨h.1, h.2.2.1⟩

/-- C9: the type validator is a raw case-insensitive character-prefix test
with no token-boundary check: it accepts a string exactly when some keyword
of the fixed list is a prefix of it after ASCII case folding, so texts such
as piechart and ganttx pass although their leading token is not itself a
recognized keyword. -/
theorem validator_prefix_match :
    (∀ s : String, validMermaidType s = true ↔
      ∃ kw, kw ∈ mermaidTypeKeywords ∧
        (lowerChars kw).isPrefixOf (lowerChars s) = true) ∧
    validMermaidType "piechart Sales" = true ∧
    validMermaidType "ganttx" = true ∧
    "piechart" ∉ mermaidTypeKeywords ∧ "ganttx" ∉ mermaidTypeKeywords := by
  refine ⟨?_, by decide, by decide, by decide, by decide⟩
  intro s
  simp [validMermaidType, List.any_eq_true]

/-- C10: the manual Try Fix remedy computes the offered text by repairing
the original untrimmed content, while the automatic fallback render repairs
the trimmed content; for any input with leading or trailing whitespace
these two computations run on different strings. -/
theorem tryfix_untrimmed_divergence (content : String) (rFix : EngineResult)
    (hpad : jsTrim content ≠ content)
    (hval : validMermaidType (jsTrim content) = true)
    (hfix : fixCommonSyntaxIssues (jsTrim content) ≠ jsTrim content) :
    handleTryFixText content = fixCommonSyntaxIssues content ∧
    (pipelineRun content .err rFix false false false).renderCalls =
      [jsTrim content, fixCommonSyntaxIssues (jsTrim content)] ∧
    content ≠ jsTrim content := by
  have hne : jsTrim content ≠ "" := by
    intro h
    rw [h] at hval
    exact absurd hval (by decide)
  refine ⟨rfl, ?_, fun h => hpad h.symm⟩
  cases rFix <;> simp [pipelineRun, hne, renderRunOf, hval, hfix]

/-- Witness for C10 at a padded input whose repaired forms are visible. -/
theorem tryfix_untrimmed_divergence_witness :
    handleTryFixText " graph TD\nsubgraphA " =
      fixCommonSyntaxIssues " graph TD\nsubgraphA " ∧
    (pipelineRun " graph TD\nsubgraphA " .err .err false false false).renderCalls =
      [jsTrim " graph TD\nsubgraphA ",
       fixCommonSyntaxIssues (jsTrim " graph TD\nsubgraphA ")] ∧
    " graph TD\nsubgraphA " ≠ jsTrim " graph TD\nsubgraphA " :=
  tryfix_untrimmed_divergence " graph TD\nsubgraphA " .err (by decide)
    (by decide) (by decide)

end Mermaid
